import Mathlib

/-!
Verification development for the `franapoli/cobrapy` repository snapshot.

The repository holds three source files and no program code of its own:

* `src/documentation_builder/milp.ipynb` — a Jupyter notebook demonstrating
  mixed-integer linear programming with the external `cobrapy` library;
* `src/documentation_builder/loopless.ipynb` — a file holding two notebook
  documents (a Loopless-FBA tutorial and an FAQ document);
* `src/.travis.yml` — the Travis CI configuration.

The notebooks are embedded below as data: each cell with its type, its
source lines and its captured outputs, transcribed verbatim from the JSON
(line by line, trailing newlines stripped; the base64 payload of the one
image/png output is elided and recorded as a flag).  The CI configuration
is embedded field by field.  The mathematical programs the notebooks state
(the ice-cream LP, the restaurant-order MILP, the boolean-indicator
constraints) are embedded as rational-arithmetic definitions taken from the
constants in the cells.  Claims about the repository are then proved as
decidable properties of this data and as theorems about the programs.
-/

set_option maxRecDepth 200000

namespace CobrapyDocs

/-- A notebook cell is either narrative markdown or executable code. -/
inductive CellType where
  | markdown : CellType
  | code : CellType
deriving DecidableEq, BEq, Repr

/-- A captured output of a code cell: its `output_type` field
(`execute_result`, `stream` or `display_data`), its text payload
(`text/plain` lines, or the `text` lines of a stream), whether an
`image/png` payload is attached (the base64 data itself is elided), and any
`text/html` payload. -/
structure Output where
  output_type : String
  text : List String
  image_png : Bool
  html : List String
deriving DecidableEq, BEq, Repr

/-- A notebook cell: its type, its source lines and its captured outputs. -/
structure Cell where
  cell_type : CellType
  source : List String
  outputs : List Output
deriving DecidableEq, BEq, Repr

/-- The cells of src/documentation_builder/milp.ipynb, in order. Source and output lines are stored verbatim (trailing newlines stripped); the base64 payload of image/png outputs is elided, recorded by the image_png flag. -/
def milpCells : List Cell :=
  [{ cell_type := CellType.markdown,
     source := ["# Mixed-Integer Linear Programming",
                "",
                "## Ice Cream",
                "",
                "This example was originally contributed by Joshua Lerman.",
                "",
                "An ice cream stand sells cones and popsicles. It wants to maximize its profit, but is subject to a budget.",
                "",
                "We can write this problem as a linear program:",
                "",
                "> **max** cone $\\cdot$ cone_margin + popsicle $\\cdot$ popsicle margin",
                "",
                "> *subject to*",
                "",
                "> cone $\\cdot$ cone_cost + popsicle $\\cdot$ popsicle_cost $\\le$ budget"],
     outputs := [] },
   { cell_type := CellType.code,
     source := ["cone_selling_price = 7.",
                "cone_production_cost = 3.",
                "popsicle_selling_price = 2.",
                "popsicle_production_cost = 1.",
                "starting_budget = 100."],
     outputs := [] },
   { cell_type := CellType.markdown,
     source := ["This problem can be written as a cobra.Model"],
     outputs := [] },
   { cell_type := CellType.code,
     source := ["from cobra import Model, Metabolite, Reaction",
                "",
                "cone = Reaction(\"cone\")",
                "popsicle = Reaction(\"popsicle\")",
                "",
                "# constrainted to a budget",
                "budget = Metabolite(\"budget\")",
                "budget._constraint_sense = \"L\"",
                "budget._bound = starting_budget",
                "cone.add_metabolites(\x7bbudget: cone_production_cost\x7d)",
                "popsicle.add_metabolites(\x7bbudget: popsicle_production_cost\x7d)",
                "",
                "# objective coefficient is the profit to be made from each unit",
                "cone.objective_coefficient = cone_selling_price - cone_production_cost",
                "popsicle.objective_coefficient = popsicle_selling_price - \\",
                "                                 popsicle_production_cost",
                "",
                "m = Model(\"lerman_ice_cream_co\")",
                "m.add_reactions((cone, popsicle))",
                "",
                "m.optimize().x_dict"],
     outputs :=
       [{ output_type := "execute_result",
          text := ["\x7b\x27cone\x27: 33.333333333333336, \x27popsicle\x27: 0.0\x7d"],
          image_png := false,
          html := [] }] },
   { cell_type := CellType.markdown,
     source := ["In reality, cones and popsicles can only be sold in integer amounts. We can use the variable kind attribute of a cobra.Reaction to enforce this."],
     outputs := [] },
   { cell_type := CellType.code,
     source := ["cone.variable_kind = \"integer\"",
                "popsicle.variable_kind = \"integer\"",
                "m.optimize().x_dict"],
     outputs :=
       [{ output_type := "execute_result",
          text := ["\x7b\x27cone\x27: 33.0, \x27popsicle\x27: 1.0\x7d"],
          image_png := false,
          html := [] }] },
   { cell_type := CellType.markdown,
     source := ["Now the model makes both popsicles and cones."],
     outputs := [] },
   { cell_type := CellType.markdown,
     source := ["## Restaurant Order",
                "",
                "To tackle the less immediately obvious problem from the following [XKCD comic](http://xkcd.com/287/):"],
     outputs := [] },
   { cell_type := CellType.code,
     source := ["from IPython.display import Image",
                "Image(url=r\"http://imgs.xkcd.com/comics/np_complete.png\")"],
     outputs :=
       [{ output_type := "execute_result",
          text := ["<IPython.core.display.Image object>"],
          image_png := false,
          html := ["<img src=\"http://imgs.xkcd.com/comics/np_complete.png\"/>"] }] },
   { cell_type := CellType.markdown,
     source := ["We want a solution satisfying the following constraints:",
                "",
                "$\\left(\\begin\x7bmatrix\x7d2.15&2.75&3.35&3.55&4.20&5.80\\end\x7bmatrix\x7d\\right) \\cdot \\vec v = 15.05$",
                "",
                "$\\vec v_i \\ge 0$",
                "",
                "$\\vec v_i \\in \\mathbb\x7bZ\x7d$",
                "",
                "This problem can be written as a COBRA model as well."],
     outputs := [] },
   { cell_type := CellType.code,
     source := ["total_cost = Metabolite(\"constraint\")",
                "total_cost._bound = 15.05",
                "",
                "costs = \x7b\"mixed_fruit\": 2.15, \"french_fries\": 2.75, \"side_salad\": 3.35,",
                "         \"hot_wings\": 3.55, \"mozarella_sticks\": 4.20, \"sampler_plate\": 5.80\x7d",
                "",
                "m = Model(\"appetizers\")",
                "",
                "for item, cost in costs.items():",
                "    r = Reaction(item)",
                "    r.add_metabolites(\x7btotal_cost: cost\x7d)",
                "    r.variable_kind = \"integer\"",
                "    m.add_reaction(r)",
                "",
                "# To add to the problem, suppose we don\x27t want to eat all mixed fruit.",
                "m.reactions.mixed_fruit.objective_coefficient = 1",
                "    ",
                "m.optimize(objective_sense=\"minimize\").x_dict"],
     outputs :=
       [{ output_type := "execute_result",
          text := ["\x7b\x27french_fries\x27: 0.0,",
                   " \x27hot_wings\x27: 2.0,",
                   " \x27mixed_fruit\x27: 1.0,",
                   " \x27mozarella_sticks\x27: 0.0,",
                   " \x27sampler_plate\x27: 1.0,",
                   " \x27side_salad\x27: 0.0\x7d"],
          image_png := false,
          html := [] }] },
   { cell_type := CellType.markdown,
     source := ["There is another solution to this problem, which would have been obtained if we had maximized for mixed fruit instead of minimizing."],
     outputs := [] },
   { cell_type := CellType.code,
     source := ["m.optimize(objective_sense=\"maximize\").x_dict"],
     outputs :=
       [{ output_type := "execute_result",
          text := ["\x7b\x27french_fries\x27: 0.0,",
                   " \x27hot_wings\x27: 0.0,",
                   " \x27mixed_fruit\x27: 7.0,",
                   " \x27mozarella_sticks\x27: 0.0,",
                   " \x27sampler_plate\x27: 0.0,",
                   " \x27side_salad\x27: 0.0\x7d"],
          image_png := false,
          html := [] }] },
   { cell_type := CellType.markdown,
     source := ["## Boolean Indicators",
                "",
                "To give a COBRA-related example, we can create boolean variables as integers, which can serve as indicators for a reaction being active in a model. For a reaction flux $v$ with lower bound -1000 and upper bound 1000, we can create a binary variable $b$ with the following constraints:",
                "",
                "$b \\in \\\x7b0, 1\\\x7d$",
                "",
                "$-1000 \\cdot b \\le v \\le 1000 \\cdot b$",
                "",
                "To introduce the above constraints into a cobra model, we can rewrite them as follows",
                "",
                "$v \\le b \\cdot 1000 \\Rightarrow v- 1000\\cdot b \\le 0$",
                "",
                "$-1000 \\cdot b \\le v \\Rightarrow v + 1000\\cdot b \\ge 0$"],
     outputs := [] },
   { cell_type := CellType.code,
     source := ["import cobra.test",
                "model = cobra.test.create_test_model(\"textbook\")",
                "",
                "# an indicator for pgi",
                "pgi = model.reactions.get_by_id(\"PGI\")",
                "# make a boolean variable",
                "pgi_indicator = Reaction(\"indicator_PGI\")",
                "pgi_indicator.lower_bound = 0",
                "pgi_indicator.upper_bound = 1",
                "pgi_indicator.variable_kind = \"integer\"",
                "# create constraint for v - 1000 b <= 0",
                "pgi_plus = Metabolite(\"PGI_plus\")",
                "pgi_plus._constraint_sense = \"L\"",
                "# create constraint for v + 1000 b >= 0",
                "pgi_minus = Metabolite(\"PGI_minus\")",
                "pgi_minus._constraint_sense = \"G\"",
                "",
                "pgi_indicator.add_metabolites(\x7bpgi_plus: -1000, pgi_minus: 1000\x7d)",
                "pgi.add_metabolites(\x7bpgi_plus: 1, pgi_minus: 1\x7d)",
                "model.add_reaction(pgi_indicator)",
                "",
                "",
                "# an indicator for zwf",
                "zwf = model.reactions.get_by_id(\"G6PDH2r\")",
                "zwf_indicator = Reaction(\"indicator_ZWF\")",
                "zwf_indicator.lower_bound = 0",
                "zwf_indicator.upper_bound = 1",
                "zwf_indicator.variable_kind = \"integer\"",
                "# create constraint for v - 1000 b <= 0",
                "zwf_plus = Metabolite(\"ZWF_plus\")",
                "zwf_plus._constraint_sense = \"L\"",
                "# create constraint for v + 1000 b >= 0",
                "zwf_minus = Metabolite(\"ZWF_minus\")",
                "zwf_minus._constraint_sense = \"G\"",
                "",
                "zwf_indicator.add_metabolites(\x7bzwf_plus: -1000, zwf_minus: 1000\x7d)",
                "zwf.add_metabolites(\x7bzwf_plus: 1, zwf_minus: 1\x7d)",
                "",
                "# add the indicator reactions to the model",
                "model.add_reaction(zwf_indicator)"],
     outputs := [] },
   { cell_type := CellType.markdown,
     source := ["In a model with both these reactions active, the indicators will also be active"],
     outputs := [] },
   { cell_type := CellType.code,
     source := ["solution = model.optimize()",
                "print(\"PGI indicator = %d\" % solution.x_dict[\"indicator_PGI\"])",
                "print(\"ZWF indicator = %d\" % solution.x_dict[\"indicator_ZWF\"])",
                "print(\"PGI flux = %.2f\" % solution.x_dict[\"PGI\"])",
                "print(\"ZWF flux = %.2f\" % solution.x_dict[\"G6PDH2r\"])"],
     outputs :=
       [{ output_type := "stream",
          text := ["PGI indicator = 1",
                   "ZWF indicator = 1",
                   "PGI flux = 4.86",
                   "ZWF flux = 4.96"],
          image_png := false,
          html := [] }] },
   { cell_type := CellType.markdown,
     source := ["Because these boolean indicators are in the model, additional constraints can be applied on them. For example, we can prevent both reactions from being active at the same time by adding the following constraint:",
                "",
                "$b_\\text\x7bpgi\x7d + b_\\text\x7bzwf\x7d = 1$"],
     outputs := [] },
   { cell_type := CellType.code,
     source := ["or_constraint = Metabolite(\"or\")",
                "or_constraint._bound = 1",
                "zwf_indicator.add_metabolites(\x7bor_constraint: 1\x7d)",
                "pgi_indicator.add_metabolites(\x7bor_constraint: 1\x7d)",
                "",
                "solution = model.optimize()",
                "print(\"PGI indicator = %d\" % solution.x_dict[\"indicator_PGI\"])",
                "print(\"ZWF indicator = %d\" % solution.x_dict[\"indicator_ZWF\"])",
                "print(\"PGI flux = %.2f\" % solution.x_dict[\"PGI\"])",
                "print(\"ZWF flux = %.2f\" % solution.x_dict[\"G6PDH2r\"])"],
     outputs :=
       [{ output_type := "stream",
          text := ["PGI indicator = 1",
                   "ZWF indicator = 0",
                   "PGI flux = 9.82",
                   "ZWF flux = 0.00"],
          image_png := false,
          html := [] }] }]

/-- The cells of the first notebook document stored in src/documentation_builder/loopless.ipynb (the Loopless FBA tutorial), in order. Conventions as in milpCells. -/
def looplessCells : List Cell :=
  [{ cell_type := CellType.markdown,
     source := ["# Loopless FBA",
                "",
                "The goal of this procedure is identification of a thermodynamically consistent flux state without loops, as implied by the name.",
                "",
                "Usually, the model has the following constraints.",
                "$$ S \\cdot v = 0 $$",
                "$$ lb \\le v \\le ub $$",
                "",
                "However, this will allow for thermodynamically infeasible loops (referred to as type 3 loops) to occur, where flux flows around a cycle without any net change of metabolites. For most cases, this is not a major issue, as solutions with these loops can usually be converted to equivalent solutions without them. However, if a flux state is desired which does not exhibit any of these loops, loopless FBA can be used. The formulation used here is modified from [Schellenberger et al.](http://dx.doi.org/10.1016/j.bpj.2010.12.3707)",
                "",
                "We can make the model irreversible, so that all reactions will satisfy",
                "$$ 0 \\le lb \\le v \\le ub \\le \\max(ub) $$",
                "",
                "We will add in boolean indicators as well, such that",
                "$$ \\max(ub) \\cdot i \\ge v $$",
                "$$ i \\in \\\x7b0, 1\\\x7d $$",
                "",
                "We also want to ensure that an entry in the row space of S also exists with negative values wherever v is nonzero. In this expression, $1-i$ acts as a not to indicate inactivity of a reaction.",
                "",
                "$$ S^\\mathsf T x - (1 - i) (\\max(ub) + 1) \\le -1 $$",
                "",
                "We will construct an LP integrating both constraints.",
                "",
                "$$ \\left(",
                "\\begin\x7bmatrix\x7d",
                "S & 0 & 0\\\\",
                "-I & \\max(ub)I & 0 \\\\",
                "0 & (\\max(ub) + 1)I & S^\\mathsf T",
                "\\end\x7bmatrix\x7d",
                "\\right)",
                "\\cdot",
                "\\left(",
                "\\begin\x7bmatrix\x7d",
                "v \\\\",
                "i \\\\",
                "x",
                "\\end\x7bmatrix\x7d",
                "\\right)",
                "\\begin\x7bmatrix\x7d",
                "&=& 0 \\\\",
                "&\\ge& 0 \\\\",
                "&\\le& \\max(ub)",
                "\\end\x7bmatrix\x7d$$",
                "",
                "Note that these extra constraints are not applied to boundary reactions which bring metabolites in and out of the system."],
     outputs := [] },
   { cell_type := CellType.code,
     source := ["from matplotlib.pylab import *",
                "%matplotlib inline",
                "",
                "import cobra.test",
                "from cobra import Reaction, Metabolite, Model",
                "from cobra.flux_analysis.loopless import construct_loopless_model",
                "from cobra.solvers import get_solver_name"],
     outputs := [] },
   { cell_type := CellType.markdown,
     source := ["We will demonstrate with a toy model which has a simple loop cycling A -> B -> C -> A, with A allowed to enter the system and C allowed to leave. A graphical view of the system is drawn below:"],
     outputs := [] },
   { cell_type := CellType.code,
     source := ["figure(figsize=(10.5, 4.5), frameon=False)",
                "gca().axis(\"off\")",
                "xlim(0.5, 3.5)",
                "ylim(0.7, 2.2)",
                "arrow_params = \x7b\"head_length\": 0.08, \"head_width\": 0.1, \"ec\": \"k\", \"fc\": \"k\"\x7d",
                "text_params = \x7b\"fontsize\": 25, \"horizontalalignment\": \"center\", \"verticalalignment\": \"center\"\x7d",
                "arrow(0.5, 1, 0.85, 0, **arrow_params)  # EX_A",
                "arrow(1.5, 1, 0.425, 0.736, **arrow_params)  # v1",
                "arrow(2.04, 1.82, 0.42, -0.72, **arrow_params)  # v2",
                "arrow(2.4, 1, -0.75, 0, **arrow_params)  # v3",
                "arrow(2.6, 1, 0.75, 0, **arrow_params)",
                "# reaction labels",
                "text(0.9, 1.15, \"EX_A\", **text_params)",
                "text(1.6, 1.5, r\"v$_1$\", **text_params)",
                "text(2.4, 1.5, r\"v$_2$\", **text_params)",
                "text(2, 0.85, r\"v$_3$\", **text_params)",
                "text(2.9, 1.15, \"DM_C\", **text_params)",
                "# metabolite labels",
                "scatter(1.5, 1, s=250, color=\x27#c994c7\x27)",
                "text(1.5, 0.9, \"A\", **text_params)",
                "scatter(2, 1.84, s=250, color=\x27#c994c7\x27)",
                "text(2, 1.95, \"B\", **text_params)",
                "scatter(2.5, 1, s=250, color=\x27#c994c7\x27)",
                "text(2.5, 0.9, \"C\", **text_params);"],
     outputs :=
       [{ output_type := "display_data",
          text := ["<matplotlib.figure.Figure at 0x7f003ad8eb50>"],
          image_png := true,
          html := [] }] },
   { cell_type := CellType.code,
     source := ["test_model = Model()",
                "test_model.add_metabolites(Metabolite(\"A\"))",
                "test_model.add_metabolites(Metabolite(\"B\"))",
                "test_model.add_metabolites(Metabolite(\"C\"))",
                "EX_A = Reaction(\"EX_A\")",
                "EX_A.add_metabolites(\x7btest_model.metabolites.A: 1\x7d)",
                "DM_C = Reaction(\"DM_C\")",
                "DM_C.add_metabolites(\x7btest_model.metabolites.C: -1\x7d)",
                "v1 = Reaction(\"v1\")",
                "v1.add_metabolites(\x7btest_model.metabolites.A: -1, test_model.metabolites.B: 1\x7d)",
                "v2 = Reaction(\"v2\")",
                "v2.add_metabolites(\x7btest_model.metabolites.B: -1, test_model.metabolites.C: 1\x7d)",
                "v3 = Reaction(\"v3\")",
                "v3.add_metabolites(\x7btest_model.metabolites.C: -1, test_model.metabolites.A: 1\x7d)",
                "DM_C.objective_coefficient = 1",
                "test_model.add_reactions([EX_A, DM_C, v1, v2, v3])"],
     outputs := [] },
   { cell_type := CellType.markdown,
     source := ["While this model contains a loop, a flux state exists which has no flux through reaction v3, and is identified by loopless FBA."],
     outputs := [] },
   { cell_type := CellType.code,
     source := ["construct_loopless_model(test_model).optimize()"],
     outputs :=
       [{ output_type := "execute_result",
          text := ["<Solution 1000.00 at 0x7f003ad82850>"],
          image_png := false,
          html := [] }] },
   { cell_type := CellType.markdown,
     source := ["However, if flux is forced through v3, then there is no longer a feasible loopless solution."],
     outputs := [] },
   { cell_type := CellType.code,
     source := ["v3.lower_bound = 1",
                "construct_loopless_model(test_model).optimize()"],
     outputs :=
       [{ output_type := "execute_result",
          text := ["<Solution \x27infeasible\x27 at 0x7f003ad82f10>"],
          image_png := false,
          html := [] }] },
   { cell_type := CellType.markdown,
     source := ["Loopless FBA is also possible on genome scale models, but it requires a capable MILP solver."],
     outputs := [] },
   { cell_type := CellType.code,
     source := ["salmonella = cobra.test.create_test_model(\"salmonella\")",
                "construct_loopless_model(salmonella).optimize(solver=get_solver_name(mip=True))"],
     outputs :=
       [{ output_type := "execute_result",
          text := ["<Solution 0.38 at 0x7f003a496190>"],
          image_png := false,
          html := [] }] },
   { cell_type := CellType.code,
     source := ["ecoli = cobra.test.create_test_model(\"ecoli\")",
                "construct_loopless_model(ecoli).optimize(solver=get_solver_name(mip=True))"],
     outputs :=
       [{ output_type := "execute_result",
          text := ["<Solution 0.98 at 0x7f003ae06b50>"],
          image_png := false,
          html := [] }] }]

/-- The cells of the second notebook document stored in src/documentation_builder/loopless.ipynb (the FAQ document), in order. Conventions as in milpCells. -/
def faqCells : List Cell :=
  [{ cell_type := CellType.markdown,
     source := ["# FAQ"],
     outputs := [] },
   { cell_type := CellType.markdown,
     source := ["This document will address frequently asked questions not addressed in other pages of the documentation."],
     outputs := [] },
   { cell_type := CellType.markdown,
     source := ["### How do I install cobrapy?"],
     outputs := [] },
   { cell_type := CellType.markdown,
     source := ["Please see the [INSTALL.md](https://github.com/opencobra/cobrapy/blob/master/INSTALL.md) file."],
     outputs := [] },
   { cell_type := CellType.markdown,
     source := ["### How do I cite cobrapy?"],
     outputs := [] },
   { cell_type := CellType.markdown,
     source := ["Please cite the 2013 publication: [10.1186/1752-0509-7-74](http://dx.doi.org/doi:10.1186/1752-0509-7-74)"],
     outputs := [] },
   { cell_type := CellType.markdown,
     source := ["### How do I rename reactions or metabolites?"],
     outputs := [] },
   { cell_type := CellType.markdown,
     source := ["TL;DR Use Model.repair afterwards",
                "",
                "When renaming metabolites or reactions, there are issues because cobra indexes based off of ID\x27s, which can cause errors. For example:"],
     outputs := [] },
   { cell_type := CellType.code,
     source := ["from __future__ import print_function",
                "import cobra.test",
                "model = cobra.test.create_test_model()",
                "",
                "for metabolite in model.metabolites:",
                "    metabolite.id = \"test_\" + metabolite.id",
                "",
                "try:",
                "    model.metabolites.get_by_id(model.metabolites[0].id)",
                "except KeyError as e:",
                "    print(repr(e))"],
     outputs :=
       [{ output_type := "stream",
          text := ["KeyError(\x27test_dcaACP_c\x27,)"],
          image_png := false,
          html := [] }] },
   { cell_type := CellType.markdown,
     source := ["The Model.repair function will rebuild the necessary indexes"],
     outputs := [] },
   { cell_type := CellType.code,
     source := ["model.repair()",
                "model.metabolites.get_by_id(model.metabolites[0].id)"],
     outputs :=
       [{ output_type := "execute_result",
          text := ["<Metabolite test_dcaACP_c at 0x688b450>"],
          image_png := false,
          html := [] }] },
   { cell_type := CellType.markdown,
     source := ["### How do I delete a gene?"],
     outputs := [] },
   { cell_type := CellType.markdown,
     source := ["That depends on what precisely you mean by delete a gene.",
                "",
                "If you want to simulate the model with a gene knockout, use the cobra.maniupulation.delete_model_genes function. The effects of this function are reversed by cobra.manipulation.undelete_model_genes."],
     outputs := [] },
   { cell_type := CellType.code,
     source := ["model = cobra.test.create_test_model()",
                "PGI = model.reactions.get_by_id(\"PGI\")",
                "print(\"bounds before knockout:\", (PGI.lower_bound, PGI.upper_bound))",
                "cobra.manipulation.delete_model_genes(model, [\"STM4221\"])",
                "print(\"bounds after knockouts\", (PGI.lower_bound, PGI.upper_bound))"],
     outputs :=
       [{ output_type := "stream",
          text := ["bounds before knockout: (-1000.0, 1000.0)",
                   "bounds after knockouts (0.0, 0.0)"],
          image_png := false,
          html := [] }] },
   { cell_type := CellType.markdown,
     source := ["If you want to actually remove all traces of a gene from a model, this is more difficult because this will require changing all the gene_reaction_rule strings for reactions involving the gene."],
     outputs := [] },
   { cell_type := CellType.markdown,
     source := ["### How do I change the reversibility of a Reaction?"],
     outputs := [] },
   { cell_type := CellType.markdown,
     source := ["Reaction.reversibility is a property in cobra which is computed when it is requested from the lower and upper bounds."],
     outputs := [] },
   { cell_type := CellType.code,
     source := ["model = cobra.test.create_test_model()",
                "model.reactions.get_by_id(\"PGI\").reversibility"],
     outputs :=
       [{ output_type := "execute_result",
          text := ["True"],
          image_png := false,
          html := [] }] },
   { cell_type := CellType.markdown,
     source := ["Trying to set it directly will result in an error: "],
     outputs := [] },
   { cell_type := CellType.code,
     source := ["try:",
                "    model.reactions.get_by_id(\"PGI\").reversibility = False",
                "except Exception as e:",
                "    print(repr(e))"],
     outputs :=
       [{ output_type := "stream",
          text := ["AttributeError(\"can\x27t set attribute\",)"],
          image_png := false,
          html := [] }] },
   { cell_type := CellType.markdown,
     source := ["The way to change the reversibility is to change the bounds to make the reaction irreversible."],
     outputs := [] },
   { cell_type := CellType.code,
     source := ["model.reactions.get_by_id(\"PGI\").lower_bound = 10",
                "model.reactions.get_by_id(\"PGI\").reversibility"],
     outputs :=
       [{ output_type := "execute_result",
          text := ["False"],
          image_png := false,
          html := [] }] },
   { cell_type := CellType.markdown,
     source := ["### How do I generate an LP file from a COBRA model?"],
     outputs := [] },
   { cell_type := CellType.markdown,
     source := ["While the cobrapy does not include python code to support this feature directly, many of the bundled solvers have this capability. Create the problem with one of these solvers, and use its appropriate function.",
                "",
                "Please note that unlike the LP file format, the MPS file format does not specify objective direction and is always a minimzation. Some (but not all) solvers will rewrite the maximization as a minimzation."],
     outputs := [] },
   { cell_type := CellType.code,
     source := ["model = cobra.test.create_test_model()",
                "# glpk through cglpk",
                "glp = cobra.solvers.cglpk.create_problem(model)",
                "glp.write(\"test.lp\")",
                "glp.write(\"test.mps\")  # will not rewrite objective",
                "# gurobi",
                "gurobi_problem = cobra.solvers.gurobi_solver.create_problem(model)",
                "gurobi_problem.write(\"test.lp\")",
                "gurobi_problem.write(\"test.mps\")  # rewrites objective",
                "# cplex",
                "cplex_problem = cobra.solvers.cplex_solver.create_problem(model)",
                "cplex_problem.write(\"test.lp\")",
                "cplex_problem.write(\"test.mps\")  # rewrites objective"],
     outputs := [] },
   { cell_type := CellType.markdown,
     source := ["### How do I visualize my flux solutions?"],
     outputs := [] },
   { cell_type := CellType.markdown,
     source := ["cobrapy works well with the [escher](https://escher.github.io/) package, which is well suited to this purpose. Consult the [escher documentation](https://escher.readthedocs.org/en/latest/) for examples."],
     outputs := [] }]


/-- The CI configuration `src/.travis.yml`, embedded field by field in file
order (YAML comments are not data and are not kept).  The YAML keys `sudo`
and `install` collide with Lean syntax, so those two fields carry the names
`sudo_flag` and `install_cmds`. -/
structure TravisConfig where
  language : String
  sudo_flag : Bool
  cache_directories : List String
  python : List String
  apt_packages : List String
  env : List String
  before_install : List String
  install_cmds : List String
  script : List String
  after_success : List String
deriving DecidableEq, BEq, Repr

/-- The contents of `src/.travis.yml`. -/
def travisConfig : TravisConfig :=
  { language := "python",
    sudo_flag := false,
    cache_directories := ["$HOME/.cache/pip"],
    python := ["2.7", "3.4", "3.5"],
    apt_packages := ["gfortran", "libatlas-dev", "libatlas-base-dev", "liblapack-dev",
      "libgmp-dev", "libglpk-dev", "libmpfr-dev"],
    env := ["PIP_CACHE_DIR=$HOME/.cache/pip"],
    before_install := ["pip install pip --upgrade",
      "pip install numpy scipy python-libsbml -v  # verbose for long-running compiles",
      "pip install cython coveralls jsonschema six",
      "if [[ $TRAVIS_PYTHON_VERSION == 2* ]]; then pip install lxml glpk; fi",
      "wget https://opencobra.github.io/pypi_cobrapy_travis/esolver.gz",
      "gzip -d esolver.gz; chmod +x esolver; export PATH=$PATH:$PWD"],
    install_cmds := ["python setup.py develop"],
    script := ["coverage run --source=cobra setup.py test"],
    after_success := ["coveralls"] }

/-- Whether `pat` is an initial segment of `l`, character by character. -/
def beginsWith : List Char → List Char → Bool
  | [], _ => true
  | _ :: _, [] => false
  | a :: as, b :: bs => a == b && beginsWith as bs

/-- Whether `pat` occurs contiguously somewhere in `l`. -/
def occursWithin (pat : List Char) : List Char → Bool
  | [] => beginsWith pat []
  | b :: bs => beginsWith pat (b :: bs) || occursWithin pat bs

/-- Whether `pat` occurs as a substring of `s`. -/
def strContains (s pat : String) : Bool := occursWithin pat.toList s.toList

/-- Some line of `ls` has `pat` as a substring. -/
def linesContain (ls : List String) (pat : String) : Bool :=
  ls.any fun l => strContains l pat

/-- Some source line of the cell has `pat` as a substring. -/
def cellMentions (c : Cell) (pat : String) : Bool := linesContain c.source pat

/-- All cells of the repository's notebook documents, in file order. -/
def allCells : List Cell := milpCells ++ looplessCells ++ faqCells

/-- The source lines of all code cells of the repository, in order. -/
def codeSourceLines : List String :=
  (allCells.filter fun c => c.cell_type == CellType.code).flatMap fun c => c.source

/-- All captured outputs of the repository's notebook documents, in order. -/
def allOutputs : List Output := allCells.flatMap fun c => c.outputs

/-- A Python line that, were it present, would define code of this
repository's own: a function (`def `), a class (`class `) or a lambda
expression. -/
def definesOwnCode (l : String) : Bool :=
  strContains l "def " || strContains l "class " || strContains l "lambda"

/-- A line holding a Python import. -/
def isImportLine (l : String) : Bool := strContains l "import"

/-- An import line that references only external libraries: the cobrapy
package, IPython, matplotlib, or the `__future__` compatibility module. -/
def importsExternal (l : String) : Bool :=
  strContains l "cobra" || strContains l "IPython" ||
    strContains l "matplotlib" || strContains l "__future__"

/-- All source lines (markdown and code) of a notebook document. -/
def docLines (cs : List Cell) : List String := cs.flatMap fun c => c.source

/-- The captured outputs whose text mentions a Python exception (its class
name ends in `Error`). -/
def errorOutputs : List Output :=
  allOutputs.filter fun o => linesContain o.text "Error"

/-- Output text that records a solver-produced result: a `Solution` object,
an optimal flux value of the ice-cream or restaurant programs (`cone`,
`fruit`), an indicator-variable assignment (`indicator`) or a printed flux
(`flux`). -/
def solverResultOutput (o : Output) : Bool :=
  linesContain o.text "Solution" || linesContain o.text "cone" ||
    linesContain o.text "fruit" || linesContain o.text "indicator" ||
    linesContain o.text "flux"

/-- An order of appetizers: how many of each of the six menu items, one
integer variable per `Reaction` the restaurant-order cell of milp.ipynb
creates from its `costs` dictionary. -/
structure Order where
  mixed_fruit : ℕ
  french_fries : ℕ
  side_salad : ℕ
  hot_wings : ℕ
  mozarella_sticks : ℕ
  sampler_plate : ℕ
deriving DecidableEq, Repr

/-- The total cost of an order, with the prices of the `costs` dictionary
of milp.ipynb (`2.15, 2.75, 3.35, 3.55, 4.20, 5.80`) read as exact
rationals. -/
def orderTotal (o : Order) : ℚ :=
  2.15 * o.mixed_fruit + 2.75 * o.french_fries + 3.35 * o.side_salad +
    3.55 * o.hot_wings + 4.20 * o.mozarella_sticks + 5.80 * o.sampler_plate

/-- The bound of the `constraint` metabolite: `total_cost._bound = 15.05`. -/
def totalCostBound : Rat := 15.05

/-- The recorded `x_dict` of the minimize cell of milp.ipynb:
hot_wings 2, mixed_fruit 1, sampler_plate 1, the rest 0. -/
def minimizeOrder : Order := ⟨1, 0, 0, 2, 0, 1⟩

/-- The recorded `x_dict` of the maximize cell of milp.ipynb:
mixed_fruit 7, the rest 0. -/
def maximizeOrder : Order := ⟨7, 0, 0, 0, 0, 0⟩

/-- Exhaustive check of the restaurant-order equation over the (provably
sufficient) box `mixed_fruit < 8, french_fries < 6, side_salad < 5,
hot_wings < 5, mozarella_sticks < 4, sampler_plate < 3`, stated over ℕ with
all prices scaled by 20 (2.15 = 43/20, ..., 15.05 = 301/20). -/
def restaurantSearch : Bool :=
  (List.range 8).all fun a =>
    (List.range 6).all fun b =>
      (List.range 5).all fun c =>
        (List.range 5).all fun d =>
          (List.range 4).all fun e =>
            (List.range 3).all fun f =>
              decide (43*a + 55*b + 67*c + 71*d + 84*e + 116*f = 301 ↔
                ((a = 1 ∧ b = 0 ∧ c = 0 ∧ d = 2 ∧ e = 0 ∧ f = 1) ∨
                 (a = 7 ∧ b = 0 ∧ c = 0 ∧ d = 0 ∧ e = 0 ∧ f = 0)))

/-- Source line `cone_selling_price = 7.` of milp.ipynb (the ice-cream
constants cell). -/
def cone_selling_price : ℚ := 7

/-- Source line `cone_production_cost = 3.` of milp.ipynb. -/
def cone_production_cost : ℚ := 3

/-- Source line `popsicle_selling_price = 2.` of milp.ipynb. -/
def popsicle_selling_price : ℚ := 2

/-- Source line `popsicle_production_cost = 1.` of milp.ipynb. -/
def popsicle_production_cost : ℚ := 1

/-- Source line `starting_budget = 100.` of milp.ipynb. -/
def starting_budget : ℚ := 100

/-- The objective of the ice-cream program: each reaction's
`objective_coefficient` is its selling price minus its production cost. -/
def iceCreamProfit (cone popsicle : ℚ) : ℚ :=
  (cone_selling_price - cone_production_cost) * cone +
    (popsicle_selling_price - popsicle_production_cost) * popsicle

/-- The left side of the budget row of the ice-cream program: the `budget`
metabolite enters `cone` with coefficient `cone_production_cost` and
`popsicle` with coefficient `popsicle_production_cost`; its
`_constraint_sense` is `"L"` (at most) with `_bound = starting_budget`. -/
def iceCreamCost (cone popsicle : ℚ) : ℚ :=
  cone_production_cost * cone + popsicle_production_cost * popsicle

/-- The boolean-indicator constraints as first stated in milp.ipynb:
`-1000 * b <= v` and `v <= 1000 * b`, over real fluxes. -/
def indicatorOriginal (v b : ℝ) : Prop := -1000 * b ≤ v ∧ v ≤ 1000 * b

/-- The rewritten form the notebook derives so that the constraints fit a
cobra model: `v - 1000 * b <= 0` and `v + 1000 * b >= 0`. -/
def indicatorRewritten (v b : ℝ) : Prop := v - 1000 * b ≤ 0 ∧ v + 1000 * b ≥ 0

end CobrapyDocs

namespace CobrapyDocs

/-- C1: No implementation source is defined in this repository: no code
cell of the three source files defines a function, class, or lambda of its
own (so no scheduler, parser, solver or data structure is authored here);
every import in the code cells references only the external cobrapy,
IPython, matplotlib or `__future__` modules; every `optimize` usage is a
method call on a cobra model object; and each notebook document gets its
model/reaction machinery from the external cobra package. -/
theorem C1_no_implementation_source :
    (codeSourceLines.all fun l => !(definesOwnCode l)) = true ∧
    ((codeSourceLines.filter isImportLine).all importsExternal) = true ∧
    ((codeSourceLines.filter fun l => strContains l "optimize").all fun l =>
      strContains l ".optimize(") = true ∧
    (milpCells.any fun c => c.cell_type == CellType.code && cellMentions c "cobra") = true ∧
    (looplessCells.any fun c => c.cell_type == CellType.code && cellMentions c "cobra") = true ∧
    (faqCells.any fun c => c.cell_type == CellType.code && cellMentions c "cobra") = true := by
  decide

/-- C2: The CI configuration specifies a matrix of interpreter versions
(Python 2.7, 3.4, 3.5), system packages including linear-algebra and MILP
libraries (libatlas, liblapack, libglpk, libgmp), a sequence of
dependency-install commands, a step that fetches the esolver binary and
puts it on the PATH, a test invocation, and a coveralls coverage step. -/
theorem C2_travis_ci_contents :
    travisConfig.python = ["2.7", "3.4", "3.5"] ∧
    "libatlas-dev" ∈ travisConfig.apt_packages ∧
    "liblapack-dev" ∈ travisConfig.apt_packages ∧
    "libglpk-dev" ∈ travisConfig.apt_packages ∧
    "libgmp-dev" ∈ travisConfig.apt_packages ∧
    (travisConfig.before_install.filter fun l => strContains l "pip install") =
      ["pip install pip --upgrade",
       "pip install numpy scipy python-libsbml -v  # verbose for long-running compiles",
       "pip install cython coveralls jsonschema six",
       "if [[ $TRAVIS_PYTHON_VERSION == 2* ]]; then pip install lxml glpk; fi"] ∧
    "wget https://opencobra.github.io/pypi_cobrapy_travis/esolver.gz" ∈
      travisConfig.before_install ∧
    "gzip -d esolver.gz; chmod +x esolver; export PATH=$PATH:$PWD" ∈
      travisConfig.before_install ∧
    travisConfig.script = ["coverage run --source=cobra setup.py test"] ∧
    travisConfig.after_success = ["coveralls"] := by
  decide

/-- C3: The only error examples captured in the notebooks are exactly two
external-library exceptions: a `KeyError` from looking an entity up by its
new id after renaming without reindexing, and an `AttributeError` from
assigning to the computed `Reaction.reversibility` property; no output has
type `error`.  The two exceptions sit on the FAQ cells that rename the
metabolites and that assign to `reversibility`. -/
theorem C3_only_error_outputs :
    errorOutputs =
      [{ output_type := "stream", text := ["KeyError(\x27test_dcaACP_c\x27,)"],
         image_png := false, html := [] },
       { output_type := "stream", text := ["AttributeError(\"can\x27t set attribute\",)"],
         image_png := false, html := [] }] ∧
    (allOutputs.all fun o => !(o.output_type == "error")) = true ∧
    (faqCells.any fun c =>
      (c.outputs.any fun o => linesContain o.text "KeyError") &&
      cellMentions c "metabolite.id = \"test_\" + metabolite.id" &&
      cellMentions c "model.metabolites.get_by_id(model.metabolites[0].id)") = true ∧
    (faqCells.any fun c =>
      (c.outputs.any fun o => linesContain o.text "AttributeError") &&
      cellMentions c "model.reactions.get_by_id(\"PGI\").reversibility = False") = true := by
  decide

/-- C4: The notebooks demonstrate all four listed programs: the ice-cream
profit maximization, the restaurant-order change-making problem, the
boolean-indicator encodings, and the loopless-FBA constraints — each with
its heading (or title), its formulation cell and its optimize call. -/
theorem C4_four_programs_demonstrated :
    "## Ice Cream" ∈ docLines milpCells ∧
    "cone = Reaction(\"cone\")" ∈ docLines milpCells ∧
    "m.optimize().x_dict" ∈ docLines milpCells ∧
    "## Restaurant Order" ∈ docLines milpCells ∧
    linesContain (docLines milpCells) "costs = \x7b\"mixed_fruit\": 2.15" = true ∧
    "m.optimize(objective_sense=\"minimize\").x_dict" ∈ docLines milpCells ∧
    "## Boolean Indicators" ∈ docLines milpCells ∧
    "pgi_indicator = Reaction(\"indicator_PGI\")" ∈ docLines milpCells ∧
    "# Loopless FBA" ∈ docLines looplessCells ∧
    "construct_loopless_model(test_model).optimize()" ∈ docLines looplessCells := by
  decide

/-- C5: The notebooks demonstrate all five listed FAQ usage patterns:
renaming entities followed by `Model.repair`, gene knockouts with
`delete_model_genes` (reversed by `undelete_model_genes`), the computed
`Reaction.reversibility` property and changing bounds, LP/MPS export via
the glpk, gurobi and cplex problem objects, and the hand-off to the
external escher package for visualization. -/
theorem C5_faq_patterns_demonstrated :
    linesContain (docLines faqCells) "metabolite.id = \"test_\" + metabolite.id" = true ∧
    "model.repair()" ∈ docLines faqCells ∧
    "cobra.manipulation.delete_model_genes(model, [\"STM4221\"])" ∈ docLines faqCells ∧
    linesContain (docLines faqCells) "undelete_model_genes" = true ∧
    "model.reactions.get_by_id(\"PGI\").reversibility" ∈ docLines faqCells ∧
    "model.reactions.get_by_id(\"PGI\").lower_bound = 10" ∈ docLines faqCells ∧
    "glp.write(\"test.lp\")" ∈ docLines faqCells ∧
    linesContain (docLines faqCells) "glp.write(\"test.mps\")" = true ∧
    linesContain (docLines faqCells) "gurobi_problem.write(\"test.lp\")" = true ∧
    linesContain (docLines faqCells) "cplex_problem.write(\"test.lp\")" = true ∧
    linesContain (docLines faqCells) "escher" = true := by
  decide

/-- C6: The captured notebook output includes a rendered image (the one
image/png display_data output) and solver console output (the printed
indicator and flux values), alongside narrative markdown cells,
mathematical formulas, and code cells invoking the external package. -/
theorem C6_captured_output_kinds :
    (allOutputs.any fun o => o.image_png) = true ∧
    (looplessCells.any fun c =>
      c.outputs.any fun o => o.output_type == "display_data" && o.image_png) = true ∧
    (milpCells.any fun c => c.outputs.any fun o =>
      o.output_type == "stream" && linesContain o.text "PGI indicator = 1") = true ∧
    (allCells.any fun c => c.cell_type == CellType.markdown) = true ∧
    linesContain (docLines looplessCells) "$$" = true ∧
    (allCells.any fun c => c.cell_type == CellType.code && cellMentions c "cobra") = true := by
  decide

/-- C7: Every captured output that records a solver-produced result (an
optimal flux value, an indicator assignment, a `Solution` object — also the
infeasible one) belongs to a cell whose source calls `optimize`; and such
outputs do exist, so the check is not vacuous. -/
theorem C7_results_from_optimize :
    (allCells.all fun c =>
      c.outputs.all fun o => !(solverResultOutput o) || cellMentions c "optimize") = true ∧
    (allCells.any fun c => c.outputs.any solverResultOutput) = true := by
  decide


/-- Helper for C8: `restaurantSearch` evaluates to `true` — the exhaustive
check of the scaled restaurant-order equation over the bounding box. -/
theorem restaurantSearch_true : restaurantSearch = true := by decide

/-- Helper for C8: on the bounding box, the scaled restaurant-order
equation holds exactly at the two recorded assignments. -/
theorem restaurant_unique_nat (a b c d e f : ℕ)
    (ha : a < 8) (hb : b < 6) (hc : c < 5) (hd : d < 5) (he : e < 4) (hf : f < 3) :
    43*a + 55*b + 67*c + 71*d + 84*e + 116*f = 301 ↔
      ((a = 1 ∧ b = 0 ∧ c = 0 ∧ d = 2 ∧ e = 0 ∧ f = 1) ∨
       (a = 7 ∧ b = 0 ∧ c = 0 ∧ d = 0 ∧ e = 0 ∧ f = 0)) := by
  have h := restaurantSearch_true
  unfold restaurantSearch at h
  rw [List.all_eq_true] at h
  have h2 := h a (List.mem_range.mpr ha)
  rw [List.all_eq_true] at h2
  have h3 := h2 b (List.mem_range.mpr hb)
  rw [List.all_eq_true] at h3
  have h4 := h3 c (List.mem_range.mpr hc)
  rw [List.all_eq_true] at h4
  have h5 := h4 d (List.mem_range.mpr hd)
  rw [List.all_eq_true] at h5
  have h6 := h5 e (List.mem_range.mpr he)
  rw [List.all_eq_true] at h6
  have h7 := h6 f (List.mem_range.mpr hf)
  exact of_decide_eq_true h7

/-- Helper for C8: the exact rational equation `orderTotal o = 15.05` is
the integer equation scaled by 20 (all six prices and the bound are exact
multiples of 1/20). -/
theorem orderTotal_eq_iff (o : Order) :
    orderTotal o = totalCostBound ↔
      43 * o.mixed_fruit + 55 * o.french_fries + 67 * o.side_salad +
        71 * o.hot_wings + 84 * o.mozarella_sticks + 116 * o.sampler_plate = 301 := by
  unfold orderTotal totalCostBound
  rw [show (2.15 : ℚ) = 43/20 by norm_num, show (2.75 : ℚ) = 55/20 by norm_num,
    show (3.35 : ℚ) = 67/20 by norm_num, show (3.55 : ℚ) = 71/20 by norm_num,
    show (4.20 : ℚ) = 84/20 by norm_num, show (5.80 : ℚ) = 116/20 by norm_num,
    show (15.05 : ℚ) = 301/20 by norm_num]
  constructor
  · intro h
    have : ((43 * o.mixed_fruit + 55 * o.french_fries + 67 * o.side_salad +
        71 * o.hot_wings + 84 * o.mozarella_sticks + 116 * o.sampler_plate : ℕ) : ℚ)
        = (301 : ℕ) := by
      push_cast
      linarith
    exact_mod_cast this
  · intro h
    have : ((43 * o.mixed_fruit + 55 * o.french_fries + 67 * o.side_salad +
        71 * o.hot_wings + 84 * o.mozarella_sticks + 116 * o.sampler_plate : ℕ) : ℚ)
        = (301 : ℕ) := by
      exact_mod_cast congrArg (fun n : ℕ => (n : ℚ)) h
    push_cast at this
    linarith

/-- C8: Both recorded restaurant-order assignments meet the cost equality
`2.15*mixed_fruit + 2.75*french_fries + 3.35*side_salad + 3.55*hot_wings +
4.20*mozarella_sticks + 5.80*sampler_plate = 15.05` exactly in rational
arithmetic, and they are the only two nonnegative-integer solutions. -/
theorem C8_restaurant_solutions :
    orderTotal minimizeOrder = totalCostBound ∧
    orderTotal maximizeOrder = totalCostBound ∧
    ∀ o : Order, orderTotal o = totalCostBound ↔ (o = minimizeOrder ∨ o = maximizeOrder) := by
  refine ⟨?_, ?_, ?_⟩
  · rw [orderTotal_eq_iff]
    decide
  · rw [orderTotal_eq_iff]
    decide
  · intro o
    rw [orderTotal_eq_iff]
    obtain ⟨a, b, c, d, e, f⟩ := o
    simp only [minimizeOrder, maximizeOrder, Order.mk.injEq]
    constructor
    · intro h
      have ha : a < 8 := by omega
      have hb : b < 6 := by omega
      have hc : c < 5 := by omega
      have hd : d < 5 := by omega
      have he : e < 4 := by omega
      have hf : f < 3 := by omega
      exact (restaurant_unique_nat a b c d e f ha hb hc hd he hf).mp h
    · rintro (⟨rfl, rfl, rfl, rfl, rfl, rfl⟩ | ⟨rfl, rfl, rfl, rfl, rfl, rfl⟩) <;> decide

/-- Witness for C8 at a concrete input: the uniqueness direction applied
to the order of seven mixed fruit yields its exact cost. -/
theorem C8_restaurant_solutions_witness :
    orderTotal ⟨7, 0, 0, 0, 0, 0⟩ = totalCostBound :=
  (C8_restaurant_solutions.2.2 ⟨7, 0, 0, 0, 0, 0⟩).mpr (Or.inr rfl)

/-- C9: For the ice-cream program (maximize `4*cone + 1*popsicle` subject
to `3*cone + 1*popsicle <= 100`, both nonnegative): the continuous optimum
is `cone = 100/3, popsicle = 0` with value `400/3`; the recorded integer
assignment `cone = 33, popsicle = 1` is feasible with cost exactly 100 and
attains the maximum profit 133 over all nonnegative-integer assignments;
and 133 is strictly below the continuous optimum `400/3`. -/
theorem C9_ice_cream_optima :
    (iceCreamCost (100/3) 0 ≤ starting_budget ∧
      iceCreamProfit (100/3) 0 = 400/3 ∧
      (∀ cone popsicle : ℚ, 0 ≤ cone → 0 ≤ popsicle →
        iceCreamCost cone popsicle ≤ starting_budget →
        iceCreamProfit cone popsicle ≤ 400/3) ∧
      (∀ cone popsicle : ℚ, 0 ≤ cone → 0 ≤ popsicle →
        iceCreamCost cone popsicle ≤ starting_budget →
        iceCreamProfit cone popsicle = 400/3 → cone = 100/3 ∧ popsicle = 0)) ∧
    (iceCreamCost ((33 : ℕ) : ℚ) ((1 : ℕ) : ℚ) = starting_budget ∧
      iceCreamProfit ((33 : ℕ) : ℚ) ((1 : ℕ) : ℚ) = 133 ∧
      (∀ cone popsicle : ℕ, iceCreamCost (cone : ℚ) (popsicle : ℚ) ≤ starting_budget →
        iceCreamProfit (cone : ℚ) (popsicle : ℚ) ≤ 133)) ∧
    (133 : ℚ) < 400/3 := by
  unfold iceCreamProfit iceCreamCost cone_selling_price cone_production_cost
    popsicle_selling_price popsicle_production_cost starting_budget
  refine ⟨⟨by norm_num, by norm_num, ?_, ?_⟩, ⟨by norm_num, by norm_num, ?_⟩, by norm_num⟩
  · intro c p hc hp h
    linarith
  · intro c p hc hp h he
    constructor <;> linarith
  · intro c p h
    have hq : ((3 * c + p : ℕ) : ℚ) ≤ ((100 : ℕ) : ℚ) := by
      push_cast
      linarith
    have hn : 3 * c + p ≤ 100 := by exact_mod_cast hq
    have hg : 4 * c + p ≤ 133 := by omega
    have : ((4 * c + p : ℕ) : ℚ) ≤ ((133 : ℕ) : ℚ) := by exact_mod_cast hg
    push_cast at this
    linarith

/-- Witness for C9 at a concrete input: the recorded integer assignment
(33, 1) itself satisfies the integer bound the theorem states. -/
theorem C9_ice_cream_optima_witness :
    iceCreamProfit ((33 : ℕ) : ℚ) ((1 : ℕ) : ℚ) ≤ 133 :=
  C9_ice_cream_optima.2.1.2.2 33 1 (le_of_eq C9_ice_cream_optima.2.1.1)

/-- C10: The boolean-indicator rewriting of milp.ipynb is an equivalence:
for every real flux `v` and every `b` in `{0, 1}`, the original pair
`-1000*b <= v` and `v <= 1000*b` holds iff the rewritten pair
`v - 1000*b <= 0` and `v + 1000*b >= 0` holds. -/
theorem C10_indicator_equivalence :
    ∀ v b : ℝ, b = 0 ∨ b = 1 →
      (indicatorOriginal v b ↔ indicatorRewritten v b) := by
  intro v b _
  unfold indicatorOriginal indicatorRewritten
  constructor
  · rintro ⟨h1, h2⟩
    exact ⟨by linarith, by linarith⟩
  · rintro ⟨h1, h2⟩
    exact ⟨by linarith, by linarith⟩

/-- Witness for C10 at the concrete input `v = 5, b = 1`: the original
constraints hold there, so the theorem yields the rewritten ones. -/
theorem C10_indicator_equivalence_witness : indicatorRewritten 5 1 :=
  (C10_indicator_equivalence 5 1 (Or.inr rfl)).mp
    (by norm_num [indicatorOriginal])

end CobrapyDocs
